import Mathlib

/-!
Verification of the campaign-sheet updater (src/app.py).

The Python functions are shallowly embedded as executable Lean definitions:
tabular data becomes lists of rows, pandas missing values (NaN) become
`Option`, numeric cells are `Rat`, and the Streamlit orchestrator's execute
path becomes a function returning either an error or the list of cell
writes it would issue.
-/

namespace CampaignTool

/-- Python's `str.strip()`: remove whitespace from both ends. (Stated over
the string's character list so that it evaluates by kernel reduction.) -/
def pyStrip (s : String) : String :=
  ⟨((s.data.dropWhile Char.isWhitespace).reverse.dropWhile Char.isWhitespace).reverse⟩

/-! ## Column resolver (`get_column_index`) -/

/-- Result of resolving a header label: a 1-based column, a Python `None`,
or a Python `IndexError` raised by an out-of-range negative subscript. -/
inductive ColResult where
  | found (col : Nat)
  | notFound
  | indexError
deriving DecidableEq, Repr

def ColResult.isFound : ColResult → Bool
  | ColResult.found _ => true
  | _ => false

/-- The 0-based positions of the header cells whose stripped content equals
`label` (the list comprehension in `get_column_index`). -/
def occurrencesOf (label : String) (headerRow : List String) : List Nat :=
  (headerRow.enum.filter (fun p => pyStrip p.2 == label)).map Prod.fst

/-- Embedding of `get_column_index(label, index, header_row)`:
`occurrences[index] + 1 if index < len(occurrences) else None`, with
Python's negative-subscript wraparound and `IndexError` made explicit. -/
def get_column_index (label : String) (index : Int) (headerRow : List String) : ColResult :=
  let occurrences := occurrencesOf label headerRow
  if index < (occurrences.length : Int) then
    let j := if 0 ≤ index then index else index + (occurrences.length : Int)
    if 0 ≤ j ∧ j < (occurrences.length : Int) then
      ColResult.found (occurrences.getD j.toNat 0 + 1)
    else ColResult.indexError
  else ColResult.notFound

/-! ## pandas-style helpers -/

/-- Deduplication keeping the first occurrence of each value, the order
pandas `Series.unique()` uses. -/
def dedupFirst : List String → List String
  | [] => []
  | x :: xs => x :: (dedupFirst xs).filter (fun y => y != x)

lemma mem_dedupFirst {a : String} : ∀ {l : List String}, a ∈ dedupFirst l ↔ a ∈ l := by
  intro l
  induction l with
  | nil => simp [dedupFirst]
  | cons x xs ih =>
    simp only [dedupFirst, List.mem_cons, List.mem_filter]
    constructor
    · rintro (rfl | ⟨h1, _⟩)
      · exact Or.inl rfl
      · exact Or.inr (ih.mp h1)
    · rintro (rfl | h)
      · exact Or.inl rfl
      · by_cases hax : a = x
        · exact Or.inl hax
        · exact Or.inr ⟨ih.mpr h, bne_iff_ne.mpr hax⟩

lemma nodup_dedupFirst : ∀ l : List String, (dedupFirst l).Nodup := by
  intro l
  induction l with
  | nil => simp [dedupFirst]
  | cons x xs ih =>
    refine List.Nodup.cons ?_ (ih.filter _)
    intro hmem
    have := (List.mem_filter.mp hmem).2
    simp at this

/-! ## CTC-mode aggregator (`load_and_process_csv`) -/

/-- A raw CTC-mode report row; `none` models a pandas missing value. -/
structure CTCRow where
  campaign : Option String
  calls : Option Rat
  connects : Option Rat
  callsToConnect : Option Rat
  abandoned : Option Rat
deriving DecidableEq, Repr

/-- One aggregated CTC-mode summary row; `ctc = none` models the NaN that
pandas `mean` produces on a group with no present values. -/
structure CTCSummary where
  camp : String
  calls : Rat
  connects : Rat
  ctc : Option Rat
  abandoned : Rat
deriving DecidableEq, Repr

/-- Embedding of `load_and_process_csv`: drop rows with a missing
`Campaign`, rename, group by `Camp`, and aggregate with pandas semantics
(`sum` skips missing values, `mean` averages the present values). -/
def load_and_process_csv (rows : List CTCRow) : List CTCSummary :=
  let kept := rows.filter (fun r => r.campaign.isSome)
  let camps := dedupFirst (kept.filterMap (fun r => r.campaign))
  camps.map (fun c =>
    let grp := kept.filter (fun r => r.campaign == some c)
    let ctcVals := grp.filterMap (fun r => r.callsToConnect)
    { camp := c
      calls := (grp.filterMap (fun r => r.calls)).sum
      connects := (grp.filterMap (fun r => r.connects)).sum
      ctc := if ctcVals.length = 0 then none else some (ctcVals.sum / (ctcVals.length : Rat))
      abandoned := (grp.filterMap (fun r => r.abandoned)).sum })

lemma load_map_camp (rows : List CTCRow) :
    (load_and_process_csv rows).map (fun s => s.camp)
      = dedupFirst ((rows.filter (fun r => r.campaign.isSome)).filterMap (fun r => r.campaign)) := by
  simp only [load_and_process_csv, List.map_map]
  exact List.map_id _

/-! ## Log-mode aggregator (`process_campaign_data_by_name`) -/

/-- A raw Log-mode report row. -/
structure LogRow where
  currentCampaign : Option String
  recordingLengthSeconds : Option Rat
deriving DecidableEq, Repr

/-- One aggregated Log-mode summary row. -/
structure LogSummary where
  camp : String
  recordingLengthSeconds : Int
  loggedCalls : Nat
  dialTime : String
deriving DecidableEq, Repr

/-- numpy float-to-int conversion (`astype(int)`): truncation toward zero. -/
def truncToInt (q : Rat) : Int := if 0 ≤ q then q.floor else q.ceil

/-- Python's `f"{i:02}"`: pad to width two with a leading zero. -/
def pad2 (i : Int) : String :=
  if 0 ≤ i ∧ i < 10 then "0" ++ toString i else toString i

/-- Embedding of the nested `seconds_to_hms` helper (Python `//` and `%`,
which agree with `Int` division and modulus for the positive divisors
used here). -/
def seconds_to_hms (seconds : Int) : String :=
  let hours := seconds / 3600
  let minutes := (seconds % 3600) / 60
  let secs := seconds % 60
  pad2 hours ++ ":" ++ pad2 minutes ++ ":" ++ pad2 secs

/-- Embedding of `process_campaign_data_by_name`: drop rows missing either
field, coerce the recording length with `astype(int)`, group by campaign,
sum the seconds, count the rows, and format the dial time. -/
def process_campaign_data_by_name (rows : List LogRow) : List LogSummary :=
  let kept := rows.filter (fun r => r.currentCampaign.isSome && r.recordingLengthSeconds.isSome)
  let coerced := kept.filterMap (fun r =>
    match r.currentCampaign, r.recordingLengthSeconds with
    | some c, some q => some (c, truncToInt q)
    | _, _ => none)
  let camps := dedupFirst (coerced.map Prod.fst)
  camps.map (fun c =>
    let grp := coerced.filter (fun p => p.1 == c)
    let secs := (grp.map Prod.snd).sum
    { camp := c
      recordingLengthSeconds := secs
      loggedCalls := grp.length
      dialTime := seconds_to_hms secs })

/-! ## Row matcher (the campaign-row loop in `main`) -/

/-- The loop `for j, row_data in enumerate(data): if row_data[0].strip() ==
camp_name: camp_row_index = j + 1; break`, with `j` carried explicitly. -/
def find_campaign_row_aux (name : String) : List (List String) → Nat → Option Nat
  | [], _ => none
  | row :: rest, j =>
    if pyStrip (row.getD 0 "") = name then some (j + 1) else find_campaign_row_aux name rest (j + 1)

/-- Embedding of the campaign-row search in `main`: scan the whole grid
from row 0 and return the first matching row's 1-based index. -/
def find_campaign_row (data : List (List String)) (name : String) : Option Nat :=
  find_campaign_row_aux name data 0

/-- Row matcher as the spec describes it: scan only data rows, i.e. rows at
0-based index at least 2, and return the first matching row's 1-based
index. -/
def find_campaign_row_specDataRows (data : List (List String)) (name : String) : Option Nat :=
  ((data.enum.filter (fun p => 2 ≤ p.1)).find?
      (fun p => pyStrip (p.2.getD 0 "") == name)).map (fun p => p.1 + 1)

/-! ## Alias resolver (`find_alternate_campaign_name_with_new_structure`) -/

/-- Embedding of `find_alternate_campaign_name_with_new_structure` on a
settings dataframe with `ncols` columns whose column 0 is `Camp`: if the
name is a canonical name, return that row's non-null cells from column 1
on, deduplicated; otherwise scan the remaining columns left to right and,
within the first column containing the name, take the first matching row,
returning its non-null cells deduplicated with the name itself removed. -/
def find_alternate_campaign_name_with_new_structure
    (settings_df : List (List (Option String))) (ncols : Nat) (campaign_name : String) :
    List String :=
  match settings_df.find? (fun row => row.getD 0 none == some campaign_name) with
  | some row => dedupFirst ((row.drop 1).filterMap id)
  | none =>
    match (List.range' 1 (ncols - 1)).findSome?
        (fun c => settings_df.find? (fun row => row.getD c none == some campaign_name)) with
    | some row => (dedupFirst (row.filterMap id)).filter (fun x => x != campaign_name)
    | none => []

/-- Alias resolver fallback as claim C5 words it: the first matching cell
in row-major order (rows top to bottom, cells within a row left to right)
selects the row. -/
def find_alternate_specRowMajor
    (settings_df : List (List (Option String))) (ncols : Nat) (campaign_name : String) :
    List String :=
  match settings_df.find? (fun row => row.getD 0 none == some campaign_name) with
  | some row => dedupFirst ((row.drop 1).filterMap id)
  | none =>
    match settings_df.find?
        (fun row => (List.range' 1 (ncols - 1)).any (fun c => row.getD c none == some campaign_name)) with
    | some row => (dedupFirst (row.filterMap id)).filter (fun x => x != campaign_name)
    | none => []

/-! ## Update orchestrator (the execute path of `main`) -/

/-- A value written to a sheet cell (`worksheet.update_cell` argument). -/
inductive CellValue where
  | num (q : Rat)
  | nan
  | str (s : String)
deriving DecidableEq, Repr

/-- One issued `update_cell(row, col, value)` call, 1-based row and column. -/
structure CellWrite where
  row : Nat
  col : Nat
  value : CellValue
deriving DecidableEq, Repr

def ctc_update_columns : List String := ["Calls", "CTC", "Abandoned", "Connects"]

def log_update_columns : List String := ["Logged Calls", "Dial Time"]

/-- The dict comprehension mapping each update column to its resolved
position for the chosen day. -/
def target_columns (cols : List String) (dayIndex : Int) (headerRow : List String) :
    List (String × ColResult) :=
  cols.map (fun c => (c, get_column_index c dayIndex headerRow))

/-- The column actually used by a write once the guard has passed. -/
def resolvedCol (dayIndex : Int) (headerRow : List String) (c : String) : Nat :=
  match get_column_index c dayIndex headerRow with
  | ColResult.found n => n
  | _ => 0

/-- Destination row for a campaign: direct match first, then each alias in
the order the alias resolver returns them. -/
def rowForCampaign (data : List (List String)) (settings : List (List (Option String)))
    (ncols : Nat) (name : String) : Option Nat :=
  match find_campaign_row data name with
  | some r => some r
  | none =>
    (find_alternate_campaign_name_with_new_structure settings ncols name).findSome?
      (fun alt => find_campaign_row data alt)

def optRatValue : Option Rat → CellValue
  | some q => CellValue.num q
  | none => CellValue.nan

/-- The CTC-mode write loop: for each summary row with a destination, the
four `update_cell` calls in source order. -/
def ctc_writes (data : List (List String)) (settings : List (List (Option String)))
    (ncols : Nat) (summaries : List CTCSummary) (dayIndex : Int) (headerRow : List String) :
    List CellWrite :=
  (summaries.map (fun s =>
    match rowForCampaign data settings ncols s.camp with
    | some rIdx =>
      [CellWrite.mk rIdx (resolvedCol dayIndex headerRow "Calls") (CellValue.num s.calls),
       CellWrite.mk rIdx (resolvedCol dayIndex headerRow "Connects") (CellValue.num s.connects),
       CellWrite.mk rIdx (resolvedCol dayIndex headerRow "CTC") (optRatValue s.ctc),
       CellWrite.mk rIdx (resolvedCol dayIndex headerRow "Abandoned") (CellValue.num s.abandoned)]
    | none => [])).flatten

/-- The Log-mode write loop. -/
def log_writes (data : List (List String)) (settings : List (List (Option String)))
    (ncols : Nat) (summaries : List LogSummary) (dayIndex : Int) (headerRow : List String) :
    List CellWrite :=
  (summaries.map (fun s =>
    match rowForCampaign data settings ncols s.camp with
    | some rIdx =>
      [CellWrite.mk rIdx (resolvedCol dayIndex headerRow "Logged Calls") (CellValue.num s.loggedCalls),
       CellWrite.mk rIdx (resolvedCol dayIndex headerRow "Dial Time") (CellValue.str s.dialTime)]
    | none => [])).flatten

/-- The CTC-mode execute path: read the header from grid row 1, resolve all
update columns, and either report an error (issuing no writes) or produce
the full list of cell writes. -/
def run_ctc (data : List (List String)) (settings : List (List (Option String))) (ncols : Nat)
    (summaries : List CTCSummary) (dayIndex : Int) : Except String (List CellWrite) :=
  match data.get? 1 with
  | none => Except.error "An error occurred: list index out of range"
  | some headerRow =>
    if (target_columns ctc_update_columns dayIndex headerRow).any (fun p => !p.2.isFound) then
      Except.error "Invalid day index for one or more columns. Please check the sheet headers."
    else
      Except.ok (ctc_writes data settings ncols summaries dayIndex headerRow)

/-- The Log-mode execute path. -/
def run_log (data : List (List String)) (settings : List (List (Option String))) (ncols : Nat)
    (summaries : List LogSummary) (dayIndex : Int) : Except String (List CellWrite) :=
  match data.get? 1 with
  | none => Except.error "An error occurred: list index out of range"
  | some headerRow =>
    if (target_columns log_update_columns dayIndex headerRow).any (fun p => !p.2.isFound) then
      Except.error "Invalid day index for one or more columns. Please check the sheet headers."
    else
      Except.ok (log_writes data settings ncols summaries dayIndex headerRow)

/-! ## Claim theorems -/

/-- C2: for a header row containing exactly `k` cells equal (after
trimming) to the label, the column resolver returns, for each occurrence
index `i` with `0 ≤ i < k`, the 0-based position of the `i`-th occurrence
plus 1, and returns not-found for every `i ≥ k`. -/
theorem c2_column_resolver_round_trip (label : String) (header : List String) (i : Nat) :
    (i < (occurrencesOf label header).length →
      get_column_index label (i : Int) header
        = ColResult.found ((occurrencesOf label header).getD i 0 + 1)) ∧
    ((occurrencesOf label header).length ≤ i →
      get_column_index label (i : Int) header = ColResult.notFound) := by
  constructor
  · intro h
    have hi : (i : Int) < ((occurrencesOf label header).length : Int) := by exact_mod_cast h
    have h0 : (0 : Int) ≤ (i : Int) := Int.natCast_nonneg i
    simp only [get_column_index, if_pos hi, if_pos h0, if_pos (And.intro h0 hi),
      Int.toNat_natCast]
  · intro h
    have hi : ¬ ((i : Int) < ((occurrencesOf label header).length : Int)) := by
      exact_mod_cast Nat.not_lt.mpr h
    simp only [get_column_index, if_neg hi]

/-- C2 witness: the spec's own scenario, header `["Calls","CTC","Calls","CTC"]`
with occurrence index 1 resolving "Calls" to column 3, and an index past
the occurrence count resolving to not-found. -/
theorem c2_column_resolver_witness :
    get_column_index "Calls" 1 ["Calls", "CTC", "Calls", "CTC"] = ColResult.found 3 ∧
    get_column_index "Calls" 9 ["Calls", "CTC", "Calls", "CTC"] = ColResult.notFound := by
  constructor
  · have h := (c2_column_resolver_round_trip "Calls" ["Calls", "CTC", "Calls", "CTC"] 1).1
      (by decide)
    simp only [Nat.cast_one] at h
    rw [h]
    decide
  · exact (c2_column_resolver_round_trip "Calls" ["Calls", "CTC", "Calls", "CTC"] 9).2 (by decide)

/-- C10: for a negative occurrence index `-m` (`m > 0`) the resolver never
returns not-found: with at least `m` occurrences it returns the 1-based
position of the `m`-th occurrence from the end, and with fewer than `m`
occurrences it raises an out-of-range error. -/
theorem c10_negative_index (label : String) (header : List String) (m : Nat) (hm : 0 < m) :
    get_column_index label (-(m : Int)) header ≠ ColResult.notFound ∧
    (m ≤ (occurrencesOf label header).length →
      get_column_index label (-(m : Int)) header
        = ColResult.found
            ((occurrencesOf label header).getD ((occurrencesOf label header).length - m) 0 + 1)) ∧
    ((occurrencesOf label header).length < m →
      get_column_index label (-(m : Int)) header = ColResult.indexError) := by
  have hneg : -(m : Int) < ((occurrencesOf label header).length : Int) := by omega
  have hnot0 : ¬ ((0 : Int) ≤ -(m : Int)) := by omega
  have hfound : m ≤ (occurrencesOf label header).length →
      get_column_index label (-(m : Int)) header
        = ColResult.found
            ((occurrencesOf label header).getD ((occurrencesOf label header).length - m) 0 + 1) := by
    intro h
    have hcond : (0 : Int) ≤ -(m : Int) + ((occurrencesOf label header).length : Int) ∧
        -(m : Int) + ((occurrencesOf label header).length : Int)
          < ((occurrencesOf label header).length : Int) := by omega
    have htn : (-(m : Int) + ((occurrencesOf label header).length : Int)).toNat
        = (occurrencesOf label header).length - m := by omega
    simp only [get_column_index, if_pos hneg, if_neg hnot0, if_pos hcond, htn]
  have herr : (occurrencesOf label header).length < m →
      get_column_index label (-(m : Int)) header = ColResult.indexError := by
    intro h
    have hcond : ¬ ((0 : Int) ≤ -(m : Int) + ((occurrencesOf label header).length : Int) ∧
        -(m : Int) + ((occurrencesOf label header).length : Int)
          < ((occurrencesOf label header).length : Int)) := by omega
    simp only [get_column_index, if_pos hneg, if_neg hnot0, if_neg hcond]
  refine ⟨?_, hfound, herr⟩
  by_cases hc : m ≤ (occurrencesOf label header).length
  · rw [hfound hc]
    simp
  · rw [herr (Nat.lt_of_not_le hc)]
    simp

/-- C10 witness: in `["Calls","CTC","Calls"]` ("Calls" occurs twice), index
-1 selects the last occurrence (column 3) and index -5 raises an
out-of-range error. -/
theorem c10_negative_index_witness :
    get_column_index "Calls" (-1) ["Calls", "CTC", "Calls"] = ColResult.found 3 ∧
    get_column_index "Calls" (-5) ["Calls", "CTC", "Calls"] = ColResult.indexError := by
  constructor
  · have h := (c10_negative_index "Calls" ["Calls", "CTC", "Calls"] 1 (by decide)).2.1 (by decide)
    rw [show ((-1 : Int) = -((1 : Nat) : Int)) by norm_num, h]
    decide
  · have h := (c10_negative_index "Calls" ["Calls", "CTC", "Calls"] 5 (by decide)).2.2 (by decide)
    rw [show ((-5 : Int) = -((5 : Nat) : Int)) by norm_num, h]

/-- C8: for every non-negative total of seconds, Dial Time is zero-padded
`HH:MM:SS` with hours equal to total div 3600 (no modulo, so hours are not
wrapped at 24), minutes `(s % 3600) / 60` and seconds `s % 60`; in
particular 3661 formats as "01:01:01" and 90000 as "25:00:00". -/
theorem c8_dial_time_formatting :
    (∀ s : Nat, ∃ h m sec : Nat,
        seconds_to_hms (s : Int)
          = pad2 (h : Int) ++ ":" ++ pad2 (m : Int) ++ ":" ++ pad2 (sec : Int) ∧
        h = s / 3600 ∧ m < 60 ∧ sec < 60 ∧ h * 3600 + m * 60 + sec = s) ∧
    seconds_to_hms 3661 = "01:01:01" ∧ seconds_to_hms 90000 = "25:00:00" := by
  refine ⟨?_, by decide, by decide⟩
  intro s
  refine ⟨s / 3600, s % 3600 / 60, s % 60, ?_, rfl, by omega, by omega, by omega⟩
  have e1 : (s : Int) / 3600 = ((s / 3600 : Nat) : Int) := by omega
  have e2 : ((s : Int) % 3600) / 60 = ((s % 3600 / 60 : Nat) : Int) := by omega
  have e3 : (s : Int) % 60 = ((s % 60 : Nat) : Int) := by omega
  simp only [seconds_to_hms, e1, e2, e3]

/-- C1: CTC aggregation yields exactly one output row per distinct
campaign (the output Camp column is the deduplication of the kept input
campaigns, without repeats), and on the spec's scenario — two rows for
"Camp A" with Calls 10 and 20, Connects 5 and 10, CTC 50 and 60, Abandoned
1 and 2 — produces Calls 30, Connects 15, CTC 55, Abandoned 3. -/
theorem c1_ctc_aggregation :
    (∀ rows : List CTCRow,
        (load_and_process_csv rows).map (fun s => s.camp)
          = dedupFirst ((rows.filter (fun r => r.campaign.isSome)).filterMap
              (fun r => r.campaign))) ∧
    (∀ rows : List CTCRow, ((load_and_process_csv rows).map (fun s => s.camp)).Nodup) ∧
    load_and_process_csv
        [⟨some "Camp A", some 10, some 5, some 50, some 1⟩,
         ⟨some "Camp A", some 20, some 10, some 60, some 2⟩]
      = [⟨"Camp A", 30, 15, some 55, 3⟩] := by
  refine ⟨load_map_camp, ?_, ?_⟩
  · intro rows
    rw [load_map_camp]
    exact nodup_dedupFirst _
  · norm_num [load_and_process_csv, dedupFirst, List.filterMap_cons, List.sum_cons]
    intro h
    cases h

/-- CTC aggregation as claim C7 words it: every row missing any of the
five required fields (Campaign, Calls, Connects, Calls to Connect,
Abandoned) is dropped before aggregation. -/
def load_and_process_csv_specDropMissing (rows : List CTCRow) : List CTCSummary :=
  let kept := rows.filter (fun r =>
    r.campaign.isSome && r.calls.isSome && r.connects.isSome
      && r.callsToConnect.isSome && r.abandoned.isSome)
  let camps := dedupFirst (kept.filterMap (fun r => r.campaign))
  camps.map (fun c =>
    let grp := kept.filter (fun r => r.campaign == some c)
    let ctcVals := grp.filterMap (fun r => r.callsToConnect)
    { camp := c
      calls := (grp.filterMap (fun r => r.calls)).sum
      connects := (grp.filterMap (fun r => r.connects)).sum
      ctc := if ctcVals.length = 0 then none else some (ctcVals.sum / (ctcVals.length : Rat))
      abandoned := (grp.filterMap (fun r => r.abandoned)).sum })

/-- C7 counterexample: with one "Camp A" row missing Calls (but carrying
Connects 5, CTC 100, Abandoned 1) and one complete "Camp A" row, the code
keeps the partial row — its present fields still contribute (Connects 10,
CTC mean 75, Abandoned 2) — whereas the claim's drop-any-missing-field
aggregation would discard it (Connects 5, CTC 50, Abandoned 1). -/
theorem c7_counterexample :
    load_and_process_csv
        [⟨some "Camp A", none, some 5, some 100, some 1⟩,
         ⟨some "Camp A", some 10, some 5, some 50, some 1⟩]
      = [⟨"Camp A", 10, 10, some 75, 2⟩] ∧
    load_and_process_csv_specDropMissing
        [⟨some "Camp A", none, some 5, some 100, some 1⟩,
         ⟨some "Camp A", some 10, some 5, some 50, some 1⟩]
      = [⟨"Camp A", 10, 5, some 50, 1⟩] ∧
    load_and_process_csv
        [⟨some "Camp A", none, some 5, some 100, some 1⟩,
         ⟨some "Camp A", some 10, some 5, some 50, some 1⟩]
      ≠ load_and_process_csv_specDropMissing
        [⟨some "Camp A", none, some 5, some 100, some 1⟩,
         ⟨some "Camp A", some 10, some 5, some 50, some 1⟩] := by
  have e1 : load_and_process_csv
      [⟨some "Camp A", none, some 5, some 100, some 1⟩,
       ⟨some "Camp A", some 10, some 5, some 50, some 1⟩]
      = [⟨"Camp A", 10, 10, some 75, 2⟩] := by
    norm_num [load_and_process_csv, dedupFirst, List.filterMap_cons, List.sum_cons]
    intro h
    cases h
  have e2 : load_and_process_csv_specDropMissing
      [⟨some "Camp A", none, some 5, some 100, some 1⟩,
       ⟨some "Camp A", some 10, some 5, some 50, some 1⟩]
      = [⟨"Camp A", 10, 5, some 50, 1⟩] := by
    norm_num [load_and_process_csv_specDropMissing, dedupFirst, List.filterMap_cons,
      List.sum_cons]
    intro hx
    cases hx
  refine ⟨e1, e2, ?_⟩
  rw [e1, e2]
  intro h
  norm_num [CTCSummary.mk.injEq] at h

/-- C7 (amended): in CTC mode only rows whose Campaign is missing are
dropped — a row with a missing Campaign never affects the output, while a
row with a present Campaign is kept even when numeric fields are missing
and its present fields still contribute; Camp values in the resulting
summary are unique. -/
theorem c7_missing_field_rows (r : CTCRow) (rows : List CTCRow) (h : r.campaign = none) :
    load_and_process_csv (r :: rows) = load_and_process_csv rows ∧
    (((load_and_process_csv rows).map (fun s => s.camp)).Nodup) ∧
    load_and_process_csv [⟨some "Camp A", none, some 5, some 100, some 1⟩]
      = [⟨"Camp A", 0, 5, some 100, 1⟩] := by
  refine ⟨?_, ?_, ?_⟩
  · simp [load_and_process_csv, List.filter_cons, h]
  · rw [load_map_camp]
    exact nodup_dedupFirst _
  · norm_num [load_and_process_csv, dedupFirst, List.filterMap_cons, List.sum_cons]
    intro hx
    cases hx

/-- C7 witness: a row with a missing Campaign is dropped, leaving the
aggregation of the remaining rows unchanged. -/
theorem c7_missing_field_rows_witness :
    load_and_process_csv [⟨none, some 1, some 2, some 3, some 4⟩]
      = load_and_process_csv ([] : List CTCRow) :=
  (c7_missing_field_rows ⟨none, some 1, some 2, some 3, some 4⟩ [] rfl).1

/-- C6 (amended): a Recording Length with non-integer numeric content is
not rejected: `astype(int)` silently truncates it toward zero, the run
continues, and the truncated value (which differs from the original) is
what contributes to the summary. -/
theorem c6_truncation (c : String) (q : Rat) (hq : q.den ≠ 1) :
    process_campaign_data_by_name [⟨some c, some q⟩]
      = [⟨c, truncToInt q, 1, seconds_to_hms (truncToInt q)⟩] ∧
    ((truncToInt q : Rat) ≠ q) := by
  constructor
  · simp [process_campaign_data_by_name, dedupFirst]
  · intro heq
    apply hq
    rw [← heq]
    exact Rat.den_intCast _

/-- C6 witness: a single Log row with Recording Length 12.5 yields a
summary with 12 truncated seconds, and 12 is not 12.5. -/
theorem c6_truncation_witness :
    process_campaign_data_by_name [⟨some "Camp A", some (25 / 2)⟩]
      = [⟨"Camp A", 12, 1, "00:00:12"⟩] ∧ ((12 : Rat) ≠ 25 / 2) := by
  have ht : truncToInt (25 / 2 : Rat) = 12 := by
    rw [truncToInt, if_pos (by norm_num), Rat.floor_def']
    norm_num
  have h := c6_truncation "Camp A" (25 / 2) (by norm_num)
  rw [ht] at h
  have hs : seconds_to_hms 12 = "00:00:12" := by decide
  rw [hs] at h
  refine ⟨h.1, ?_⟩
  have h2 := h.2
  intro hc
  exact h2 (by exact_mod_cast hc)

/-- C6 counterexample: on a report row whose Recording Length field holds
the non-integer 12.5, the Log-mode aggregation does not fail — it returns
normally with the value truncated to 12 seconds. -/
theorem c6_counterexample :
    process_campaign_data_by_name [⟨some "Camp A", some (25 / 2)⟩]
      = [⟨"Camp A", 12, 1, "00:00:12"⟩] := by
  have ht : truncToInt (25 / 2 : Rat) = 12 := by
    rw [truncToInt, if_pos (by norm_num), Rat.floor_def']
    norm_num
  have hs : seconds_to_hms 12 = "00:00:12" := by decide
  simp [process_campaign_data_by_name, dedupFirst, ht, hs]

lemma find_campaign_row_aux_first (name : String) :
    ∀ (l : List (List String)) (j b : Nat) (hj : j < l.length),
      pyStrip ((l.get ⟨j, hj⟩).getD 0 "") = name →
      (∀ k (hk : k < j), pyStrip ((l.get ⟨k, Nat.lt_trans hk hj⟩).getD 0 "") ≠ name) →
      find_campaign_row_aux name l b = some (b + j + 1) := by
  intro l
  induction l with
  | nil =>
    intro j b hj
    exact absurd hj (Nat.not_lt_zero j)
  | cons row rest ih =>
    intro j b hj hmatch hbefore
    cases j with
    | zero =>
      have hm : pyStrip (row.getD 0 "") = name := hmatch
      simp only [find_campaign_row_aux, if_pos hm]
    | succ k =>
      have hrow : ¬ (pyStrip (row.getD 0 "") = name) := hbefore 0 (Nat.succ_pos k)
      have hrec := ih k (b + 1) (Nat.lt_of_succ_lt_succ hj) hmatch
        (fun k' hk' => hbefore (k' + 1) (Nat.succ_lt_succ hk'))
      simp only [find_campaign_row_aux, if_neg hrow, hrec]
      exact congrArg some (by omega)

/-- C3 (amended): the row matcher scans every grid row starting at row 0 —
including the title row and the header row — comparing each row's stripped
column-0 value to the name exactly and case-sensitively, and returns the
first matching row's 1-based index (grid row `j` maps to sheet row
`j + 1`). Rows 0 and 1 can be the matched row. -/
theorem c3_row_matcher_all_rows (data : List (List String)) (name : String) (j : Nat)
    (hj : j < data.length)
    (hmatch : pyStrip ((data.get ⟨j, hj⟩).getD 0 "") = name)
    (hbefore : ∀ k (hk : k < j), pyStrip ((data.get ⟨k, Nat.lt_trans hk hj⟩).getD 0 "") ≠ name) :
    find_campaign_row data name = some (j + 1) := by
  have h := find_campaign_row_aux_first name data j 0 hj hmatch hbefore
  rw [find_campaign_row, h]
  exact congrArg some (by omega)

/-- C3 witness: in a grid whose first matching row is data row 2, the
matcher returns sheet row 3. -/
theorem c3_row_matcher_witness :
    find_campaign_row [["Alpha"], ["Header"], ["Camp B"]] "Camp B" = some 3 :=
  c3_row_matcher_all_rows [["Alpha"], ["Header"], ["Camp B"]] "Camp B" 2
    (by decide) (by decide) (by decide)

/-- C3 counterexample: with the campaign name sitting in the title row
(row 0), the code matches row 0 and returns sheet row 1, while a matcher
restricted to data rows (index at least 2) would return sheet row 3 —
so rows 0 and 1 can be the matched row. -/
theorem c3_counterexample :
    find_campaign_row [["Camp A"], ["Header"], ["Camp A"]] "Camp A" = some 1 ∧
    find_campaign_row_specDataRows [["Camp A"], ["Header"], ["Camp A"]] "Camp A" = some 3 ∧
    find_campaign_row [["Camp A"], ["Header"], ["Camp A"]] "Camp A"
      ≠ find_campaign_row_specDataRows [["Camp A"], ["Header"], ["Camp A"]] "Camp A" := by
  refine ⟨by decide, by decide, by decide⟩

lemma mem_of_getD_eq_some {B : String} :
    ∀ (l : List (Option String)) (n : Nat), l.getD n none = some B → some B ∈ l := by
  intro l
  induction l with
  | nil =>
    intro n h
    rw [List.getD_nil] at h
    cases h
  | cons x xs ih =>
    intro n h
    cases n with
    | zero =>
      rw [List.getD_cons_zero] at h
      exact h ▸ List.mem_cons_self x xs
    | succ m =>
      rw [List.getD_cons_succ] at h
      exact List.mem_cons_of_mem x (ih m h)

lemma mem_drop_one_of_getD {B : String} (l : List (Option String)) (c : Nat) (hc : 1 ≤ c)
    (h : l.getD c none = some B) : some B ∈ l.drop 1 := by
  cases l with
  | nil =>
    rw [List.getD_nil] at h
    cases h
  | cons x xs =>
    cases c with
    | zero => exact absurd hc (by omega)
    | succ m =>
      rw [List.getD_cons_succ] at h
      exact mem_of_getD_eq_some xs m h

/-- C4 counterexample: in a table with two rows whose canonical column-0
name is "A" — `[["A","C"], ["A","B"]]` — the resolver takes only the
first such row, so resolving "A" yields `["C"]` and does not contain "B",
even though "B" is listed as an alias of "A" in the second row. -/
theorem c4_counterexample :
    find_alternate_campaign_name_with_new_structure
        [[some "A", some "C"], [some "A", some "B"]] 2 "A" = ["C"] ∧
    "B" ∉ find_alternate_campaign_name_with_new_structure
        [[some "A", some "C"], [some "A", some "B"]] 2 "A" := by
  refine ⟨by decide, by decide⟩

/-- C4 (amended): alias resolution is symmetric for a row holding both
names provided that row is the first row whose column 0 is A, that B does
not appear in column 0 at all, and that the first occurrence of B in the
resolver's column-major scan of columns ≥ 1 lies in that same row: then
resolving A yields a list containing B and resolving B yields a list
containing A. -/
theorem c4_alias_symmetry (df : List (List (Option String))) (ncols : Nat) (A B : String)
    (r : List (Option String)) (c : Nat)
    (hAB : A ≠ B) (hc : 1 ≤ c) (hBc : r.getD c none = some B)
    (hfindA : df.find? (fun row => row.getD 0 none == some A) = some r)
    (hB0 : df.find? (fun row => row.getD 0 none == some B) = none)
    (hfindB : (List.range' 1 (ncols - 1)).findSome?
        (fun k => df.find? (fun row => row.getD k none == some B)) = some r) :
    B ∈ find_alternate_campaign_name_with_new_structure df ncols A ∧
    A ∈ find_alternate_campaign_name_with_new_structure df ncols B := by
  have hA0 : r.getD 0 none = some A := by
    have h := List.find?_some hfindA
    simpa using h
  constructor
  · simp only [find_alternate_campaign_name_with_new_structure, hfindA]
    apply mem_dedupFirst.mpr
    rw [List.mem_filterMap]
    exact ⟨some B, mem_drop_one_of_getD r c hc hBc, rfl⟩
  · simp only [find_alternate_campaign_name_with_new_structure, hB0, hfindB]
    rw [List.mem_filter]
    refine ⟨?_, ?_⟩
    · apply mem_dedupFirst.mpr
      rw [List.mem_filterMap]
      exact ⟨some A, mem_of_getD_eq_some r 0 hA0, rfl⟩
    · exact bne_iff_ne.mpr hAB

/-- C4 witness: in the one-row table `[["A","B"]]`, resolving "A" yields a
list containing "B" and resolving "B" yields a list containing "A". -/
theorem c4_alias_symmetry_witness :
    "B" ∈ find_alternate_campaign_name_with_new_structure [[some "A", some "B"]] 2 "A" ∧
    "A" ∈ find_alternate_campaign_name_with_new_structure [[some "A", some "B"]] 2 "B" :=
  c4_alias_symmetry [[some "A", some "B"]] 2 "A" "B" [some "A", some "B"] 1
    (by decide) (by decide) (by decide) (by decide) (by decide) (by decide)

lemma findSome_range_first {α : Type} (g : Nat → Option α) :
    ∀ (n s c : Nat), c ∈ List.range' s n → (∀ k, s ≤ k → k < c → g k = none) →
      g c ≠ none → (List.range' s n).findSome? g = g c := by
  intro n
  induction n with
  | zero =>
    intro s c hc
    simp [List.range'] at hc
  | succ n ih =>
    intro s c hc hbefore hsome
    rw [List.range'_succ]
    by_cases hcs : c = s
    · subst hcs
      obtain ⟨v, hv⟩ := Option.ne_none_iff_exists'.mp hsome
      simp [List.findSome?_cons, hv]
    · have hmem := List.mem_range'_1.mp hc
      have hsc : s < c := lt_of_le_of_ne hmem.1 (Ne.symm hcs)
      have hgs : g s = none := hbefore s le_rfl hsc
      simp only [List.findSome?_cons, hgs]
      exact ih (s + 1) c (List.mem_range'_1.mpr ⟨hsc, by omega⟩)
        (fun k hk1 hk2 => hbefore k (by omega) hk2) hsome

/-- C5 (amended): when the campaign name is absent from column 0, the
alias resolver's scan is column-major, not row-major: columns ≥ 1 are
scanned left to right, and within the first column containing the name,
rows top to bottom; the first match in that order selects the row, and
later matches are never considered. -/
theorem c5_alias_scan_column_major (df : List (List (Option String))) (ncols : Nat)
    (name : String) (c : Nat) (r : List (Option String))
    (h0 : df.find? (fun row => row.getD 0 none == some name) = none)
    (hc : c ∈ List.range' 1 (ncols - 1))
    (hbefore : ∀ k, 1 ≤ k → k < c →
      df.find? (fun row => row.getD k none == some name) = none)
    (hr : df.find? (fun row => row.getD c none == some name) = some r) :
    find_alternate_campaign_name_with_new_structure df ncols name
      = (dedupFirst (r.filterMap id)).filter (fun x => x != name) := by
  have hscan : (List.range' 1 (ncols - 1)).findSome?
      (fun k => df.find? (fun row => row.getD k none == some name)) = some r := by
    have h := findSome_range_first
      (fun k => df.find? (fun row => row.getD k none == some name))
      (ncols - 1) 1 c hc hbefore
      (by
        show df.find? (fun row => row.getD c none == some name) ≠ none
        rw [hr]
        exact Option.some_ne_none r)
    rw [h]
    exact hr
  simp only [find_alternate_campaign_name_with_new_structure, h0, hscan]

/-- C5 witness: with the name "N" absent from column 0, present at row 1
of column 1 and row 0 of column 2, the resolver selects row 1 (first in
column-major order) and returns `["Y"]`. -/
theorem c5_alias_scan_witness :
    find_alternate_campaign_name_with_new_structure
        [[some "X", none, some "N"], [some "Y", some "N", none]] 3 "N" = ["Y"] := by
  have h := c5_alias_scan_column_major
    [[some "X", none, some "N"], [some "Y", some "N", none]] 3 "N" 1
    [some "Y", some "N", none]
    (by decide) (by decide)
    (by
      intro k hk1 hk2
      exact absurd (Nat.lt_of_le_of_lt hk1 hk2) (Nat.lt_irrefl 1))
    (by decide)
  rw [h]
  decide

/-- C5 counterexample: same table — the first match in row-major order is
row 0 (at column 2), but the code scans column 1 over all rows first and
selects row 1, so the result is `["Y"]` where the claim's row-major scan
would produce `["X"]`. -/
theorem c5_counterexample :
    find_alternate_campaign_name_with_new_structure
        [[some "X", none, some "N"], [some "Y", some "N", none]] 3 "N" = ["Y"] ∧
    find_alternate_specRowMajor
        [[some "X", none, some "N"], [some "Y", some "N", none]] 3 "N" = ["X"] ∧
    find_alternate_campaign_name_with_new_structure
        [[some "X", none, some "N"], [some "Y", some "N", none]] 3 "N"
      ≠ find_alternate_specRowMajor
        [[some "X", none, some "N"], [some "Y", some "N", none]] 3 "N" := by
  refine ⟨by decide, by decide, by decide⟩

/-- C9: if any update-column label required by the selected mode resolves
to not-found for the chosen day in the header row, the run returns an
error and issues no cell writes at all. -/
theorem c9_abort_before_writes (data : List (List String))
    (settings : List (List (Option String))) (ncols : Nat)
    (ctcSummaries : List CTCSummary) (logSummaries : List LogSummary)
    (day : Int) (headerRow : List String) (hhdr : data.get? 1 = some headerRow) :
    ((∃ c ∈ ctc_update_columns, get_column_index c day headerRow = ColResult.notFound) →
      ∃ e, run_ctc data settings ncols ctcSummaries day = Except.error e) ∧
    ((∃ c ∈ log_update_columns, get_column_index c day headerRow = ColResult.notFound) →
      ∃ e, run_log data settings ncols logSummaries day = Except.error e) := by
  constructor
  · rintro ⟨c, hcmem, hcnf⟩
    have hany : (target_columns ctc_update_columns day headerRow).any
        (fun p => !p.2.isFound) = true := by
      rw [target_columns, List.any_eq_true]
      refine ⟨(c, get_column_index c day headerRow), List.mem_map.mpr ⟨c, hcmem, rfl⟩, ?_⟩
      rw [hcnf]
      rfl
    simp only [run_ctc, hhdr, if_pos hany]
    exact ⟨_, rfl⟩
  · rintro ⟨c, hcmem, hcnf⟩
    have hany : (target_columns log_update_columns day headerRow).any
        (fun p => !p.2.isFound) = true := by
      rw [target_columns, List.any_eq_true]
      refine ⟨(c, get_column_index c day headerRow), List.mem_map.mpr ⟨c, hcmem, rfl⟩, ?_⟩
      rw [hcnf]
      rfl
    simp only [run_log, hhdr, if_pos hany]
    exact ⟨_, rfl⟩

/-- C9 witness: a header without the required labels makes both modes
return an error rather than a list of writes. -/
theorem c9_abort_before_writes_witness :
    (∃ e, run_ctc [[], ["x"]] [] 0 [] 0 = Except.error e) ∧
    (∃ e, run_log [[], ["x"]] [] 0 [] 0 = Except.error e) := by
  have h := c9_abort_before_writes [[], ["x"]] [] 0 [] [] 0 ["x"] (by decide)
  exact ⟨h.1 ⟨"Calls", by decide, by decide⟩, h.2 ⟨"Logged Calls", by decide, by decide⟩⟩

end CampaignTool
